import Mathlib

/-!
Shallow embedding of the pipeline orchestration and data-quality framework of
the marketing-analytics pipeline: the run/check ledger and the per-step
protocol of `pipeline_orchestrator.py`, the layer executors of
`layer1_staging.py`, `layer2_warehouse.py` and `layer3_business.py`, and the
master orchestration of `master_pipeline.py`.

Time is modelled by a natural-number clock stored in the metadata store; each
call to `datetime.now()` in the source consumes one strictly increasing tick.
This reflects that, in the single-threaded source, consecutive calls to
`datetime.now().strftime` with microsecond resolution and intervening I/O
produce strictly increasing, pairwise distinct timestamp strings.
-/

namespace Pipeline

/-- The source formats a run id as the string
`layer + underscore + table_name + underscore + timestamp`
(`pipeline_orchestrator.py`, line 94).  Because the timestamp carries
microseconds and the clock ticks strictly increase, two generated run ids are
equal exactly when their layer, table name and generation tick agree, so the
id is modelled as that triple. -/
structure RunId where
  layer : String
  table : String
  tick : Nat
deriving DecidableEq, Repr

/-- One row of the `pipeline_runs` metadata table
(`pipeline_orchestrator.py`, lines 48-59). -/
structure PipelineRunRow where
  run_id : RunId
  layer : String
  table_name : String
  status : String
  start_time : Option Nat
  end_time : Option Nat
  row_count : Option Int
  error_message : Option String
deriving DecidableEq, Repr

/-- One row of the `data_quality_checks` metadata table
(`pipeline_orchestrator.py`, lines 62-76).  The source derives `check_id`
from the run id, the check name and a fine-grained timestamp; it is modelled
as that triple. -/
structure CheckRow where
  check_run_id : RunId
  check_name_id : String
  check_tick : Nat
  run_id : RunId
  table_name : String
  check_type : String
  check_name : String
  expected_value : String
  actual_value : String
  status : String
  error_details : Option String
  check_time : Nat
deriving DecidableEq, Repr

/-- The metadata store owned by `DataPipelineOrchestrator`, together with the
tick clock standing in for wall-clock time. -/
structure MetaDB where
  pipeline_runs : List PipelineRunRow
  quality_checks : List CheckRow
  clock : Nat
deriving DecidableEq, Repr

/-- The freshly initialised metadata store
(`DataPipelineOrchestrator._setup_metadata_tables`). -/
def MetaDB.init : MetaDB :=
  { pipeline_runs := [], quality_checks := [], clock := 0 }

/-- `DataPipelineOrchestrator.log_pipeline_run`
(`pipeline_orchestrator.py`, lines 91-112).  A fresh `run_id` is generated
from the current time on EVERY call; on `STARTED` the row is inserted, on any
other status the source runs
`UPDATE pipeline_runs SET ... WHERE run_id = ?` against the freshly
generated id.  The source calls `datetime.now()` twice: once for the run id
and once for the start or end time. -/
def log_pipeline_run (db : MetaDB) (layer table_name status : String)
    (row_count : Option Int := none) (error_message : Option String := none) :
    MetaDB × RunId :=
  let rid : RunId := ⟨layer, table_name, db.clock⟩
  if status = "STARTED" then
    ({ db with
        pipeline_runs := db.pipeline_runs ++
          [{ run_id := rid
             layer := layer
             table_name := table_name
             status := status
             start_time := some (db.clock + 1)
             end_time := none
             row_count := none
             error_message := none }]
        clock := db.clock + 2 }, rid)
  else
    ({ db with
        pipeline_runs := db.pipeline_runs.map fun r =>
          if r.run_id = rid then
            { r with
                status := status
                end_time := some (db.clock + 1)
                row_count := row_count
                error_message := error_message }
          else r
        clock := db.clock + 2 }, rid)

/-- `DataPipelineOrchestrator.log_data_quality_check`
(`pipeline_orchestrator.py`, lines 114-129): inserts one new check row.  The
source calls `datetime.now()` twice (check id, check time). -/
def log_data_quality_check (db : MetaDB) (run_id : RunId)
    (table_name check_type check_name expected actual status : String)
    (error_details : Option String := none) : MetaDB :=
  { db with
      quality_checks := db.quality_checks ++
        [{ check_run_id := run_id
           check_name_id := check_name
           check_tick := db.clock
           run_id := run_id
           table_name := table_name
           check_type := check_type
           check_name := check_name
           expected_value := expected
           actual_value := actual
           status := status
           error_details := error_details
           check_time := db.clock + 1 }]
      clock := db.clock + 2 }

/-- Every run id stored in the ledger was generated at a tick strictly below
the current clock. -/
def ClockInv (db : MetaDB) : Prop :=
  ∀ r ∈ db.pipeline_runs, r.run_id.tick < db.clock

/-!
Executable arithmetic and comparison primitives.  Python float arithmetic
and SQLite REAL arithmetic are modelled in ℚ.  The ambient field operations
on ℚ are sealed irreducible by the library, which would block evaluation of
concrete pipeline runs inside proofs, so the embedding computes with
`Rat.divInt`-based primitives; the bridging lemmas `ratMul_eq`, `ratDiv_eq`,
`ratSub_eq` and `ratAdd_eq` below identify them with the field operations.
Likewise Python and SQLite compare strings lexicographically by code point;
`strLtB` is that comparison, written by structural recursion so that it
evaluates. -/

/-- Rational multiplication, computed on numerators and denominators. -/
def ratMul (a b : ℚ) : ℚ := Rat.divInt (a.num * b.num) ((a.den : Int) * b.den)

/-- Rational division, computed on numerators and denominators. -/
def ratDiv (a b : ℚ) : ℚ := Rat.divInt (a.num * (b.den : Int)) ((a.den : Int) * b.num)

/-- Rational subtraction, computed on numerators and denominators. -/
def ratSub (a b : ℚ) : ℚ :=
  Rat.divInt (a.num * b.den - b.num * a.den) ((a.den : Int) * b.den)

/-- Rational addition, computed on numerators and denominators. -/
def ratAdd (a b : ℚ) : ℚ :=
  Rat.divInt (a.num * b.den + b.num * a.den) ((a.den : Int) * b.den)

/-- Lexicographic ordering of code-point lists (the Python and SQLite string
order restricted to the ASCII dates and labels this pipeline compares). -/
def charListLtB : List Char → List Char → Bool
  | [], [] => false
  | [], _ :: _ => true
  | _ :: _, [] => false
  | a :: as, b :: bs =>
    if a.toNat < b.toNat then true
    else if b.toNat < a.toNat then false
    else charListLtB as bs

/-- Strict lexicographic string comparison. -/
def strLtB (a b : String) : Bool := charListLtB a.data b.data

/-- SQL MIN over a list of strings (`none` on the empty list, as SQL MIN of
no rows is NULL). -/
def minString? (l : List String) : Option String :=
  l.foldl (fun acc s =>
    match acc with
    | none => some s
    | some m => if strLtB s m then some s else some m) none

/-- SQL MAX over a list of strings (`none` on the empty list). -/
def maxString? (l : List String) : Option String :=
  l.foldl (fun acc s =>
    match acc with
    | none => some s
    | some m => if strLtB m s then some s else some m) none

/-!
The quality check library `DataQualityChecker`
(`pipeline_orchestrator.py`, lines 161-278).  Each check first evaluates a
SQL query against live data; that evaluation is modelled as an
`Except String` computation (`.error` models the query or the subsequent
Python code raising, e.g. a missing table or a `NoneType` comparison), and
the check catches any error and records it as a FAILED check with
actual value ERROR.  A table or column handed to a check is `Option`-valued:
`none` models a query that raises (missing table or column).
-/

/-- The `SELECT COUNT(*)` evaluation inside `check_row_count`. -/
def rowCountEval {α : Type} (table : Option (List α)) : Except String Nat :=
  match table with
  | none => .error "no such table"
  | some rows => .ok rows.length

/-- `DataQualityChecker.check_row_count`
(`pipeline_orchestrator.py`, lines 168-192). -/
def check_row_count {α : Type} (db : MetaDB) (table : Option (List α))
    (table_name : String) (min_rows : Int) (run_id : RunId) : MetaDB × Bool :=
  match rowCountEval table with
  | .ok actual_count =>
    let status := if (actual_count : Int) ≥ min_rows then "PASSED" else "FAILED"
    (log_data_quality_check db run_id table_name "ROW_COUNT" "min_rows_check"
        (toString min_rows) (toString actual_count) status none,
      status = "PASSED")
  | .error e =>
    (log_data_quality_check db run_id table_name "ROW_COUNT" "min_rows_check"
        (toString min_rows) "ERROR" "FAILED" (some e), false)

/-- The `COUNT(*)` / `SUM(CASE WHEN column IS NULL ...)` evaluation inside
`check_null_percentage`; returns (total_rows, null_rows).  (For an empty
table the SQL `SUM` yields NULL; the source never uses `null_rows` in that
case, so counting zero nulls is equivalent.) -/
def nullPctEval (column : Option (List (Option ℚ))) :
    Except String (Nat × Nat) :=
  match column with
  | none => .error "no such table or column"
  | some vals => .ok (vals.length, (vals.filter fun v => v = none).length)

/-- `DataQualityChecker.check_null_percentage`
(`pipeline_orchestrator.py`, lines 194-222):
`actual_null_pct = (null_rows / total_rows * 100) if total_rows > 0 else 0`,
PASSED iff `actual_null_pct <= max_null_pct`.  Python float arithmetic is
modelled in ℚ. -/
def check_null_percentage (db : MetaDB) (column : Option (List (Option ℚ)))
    (table_name column_name : String) (max_null_pct : ℚ) (run_id : RunId) :
    MetaDB × Bool :=
  match nullPctEval column with
  | .ok (total_rows, null_rows) =>
    let actual_null_pct : ℚ :=
      if total_rows > 0 then ratMul (ratDiv (null_rows : ℚ) (total_rows : ℚ)) 100
      else 0
    let status := if actual_null_pct ≤ max_null_pct then "PASSED" else "FAILED"
    (log_data_quality_check db run_id table_name "NULL_CHECK"
        (column_name ++ "_null_check") ("<=" ++ toString max_null_pct ++ "%")
        (toString actual_null_pct ++ "%") status none,
      status = "PASSED")
  | .error e =>
    (log_data_quality_check db run_id table_name "NULL_CHECK"
        (column_name ++ "_null_check") ("<=" ++ toString max_null_pct ++ "%")
        "ERROR" "FAILED" (some e), false)

/-- The `SELECT COUNT(DISTINCT column)` evaluation inside
`check_unique_count`; SQL COUNT(DISTINCT) ignores NULLs. -/
def uniqueCountEval (column : Option (List (Option ℚ))) : Except String Nat :=
  match column with
  | none => .error "no such table or column"
  | some vals => .ok (vals.filterMap id).dedup.length

/-- `DataQualityChecker.check_unique_count`
(`pipeline_orchestrator.py`, lines 224-245). -/
def check_unique_count (db : MetaDB) (column : Option (List (Option ℚ)))
    (table_name column_name : String) (min_unique : Int) (run_id : RunId) :
    MetaDB × Bool :=
  match uniqueCountEval column with
  | .ok actual_unique =>
    let status := if (actual_unique : Int) ≥ min_unique then "PASSED" else "FAILED"
    (log_data_quality_check db run_id table_name "UNIQUENESS"
        (column_name ++ "_unique_check") (">=" ++ toString min_unique)
        (toString actual_unique) status none,
      status = "PASSED")
  | .error e =>
    (log_data_quality_check db run_id table_name "UNIQUENESS"
        (column_name ++ "_unique_check") (">=" ++ toString min_unique)
        "ERROR" "FAILED" (some e), false)

/-- The evaluation inside `check_date_range`: the
`SELECT MIN(col), MAX(col) ... WHERE col IS NOT NULL` query followed by the
Python comparison `actual_min < min_date or actual_max > max_date`.  When the
column holds no non-null value the query returns the row (NULL, NULL), the
tuple unpack succeeds, and the comparison `None < str` raises `TypeError`;
that raise is the `.error` of the second match arm.  Dates are ISO strings
compared lexically, as in SQLite. -/
def dateRangeEval (column : Option (List (Option String)))
    (min_date max_date : String) : Except String (String × String × Bool) :=
  match column with
  | none => .error "no such table or column"
  | some vals =>
    let nonNull := vals.filterMap id
    match minString? nonNull, maxString? nonNull with
    | some actual_min, some actual_max =>
      .ok (actual_min, actual_max,
        !(strLtB actual_min min_date || strLtB max_date actual_max))
    | _, _ => .error "TypeError: unorderable types NoneType and str"

/-- `DataQualityChecker.check_date_range`
(`pipeline_orchestrator.py`, lines 247-278). -/
def check_date_range (db : MetaDB) (column : Option (List (Option String)))
    (table_name date_column min_date max_date : String) (run_id : RunId) :
    MetaDB × Bool :=
  match dateRangeEval column min_date max_date with
  | .ok (actual_min, actual_max, date_valid) =>
    let status := if date_valid then "PASSED" else "FAILED"
    (log_data_quality_check db run_id table_name "DATE_RANGE"
        (date_column ++ "_range_check") (min_date ++ " to " ++ max_date)
        (actual_min ++ " to " ++ actual_max) status none,
      status = "PASSED")
  | .error e =>
    (log_data_quality_check db run_id table_name "DATE_RANGE"
        (date_column ++ "_range_check") (min_date ++ " to " ++ max_date)
        "ERROR" "FAILED" (some e), false)

/-!
Layer executors and the per-step protocol.  Every transformation step in
`layer1_staging.py`, `layer2_warehouse.py` and `layer3_business.py` follows
one protocol: log STARTED, run the fallible SQL work, then on success log a
SUCCESS terminal write with the target row count (and run its quality
checks), on exception log a FAILED terminal write with row count 0 and the
exception text and re-raise.  The step-specific SQL is abstracted as an
`Except String Int` (the row count, or the raised exception text).
-/

/-- A raw staging row of `stg_sales_raw`; only the columns the staging
quality checks read are modelled. -/
structure RawRow where
  customer_id : Option ℚ
  order_id : Option ℚ
  sales : Option ℚ
deriving DecidableEq, Repr

/-- `StagingLayer._run_raw_data_quality_checks`
(`layer1_staging.py`, lines 107-133). -/
def run_raw_data_quality_checks (db : MetaDB) (rows : List RawRow)
    (run_id : RunId) : MetaDB :=
  let db1 := (check_row_count db (some rows) "stg_sales_raw" 1000 run_id).1
  let db2 := (check_null_percentage db1 (some (rows.map (·.customer_id)))
    "stg_sales_raw" "customer_id" 0 run_id).1
  let db3 := (check_null_percentage db2 (some (rows.map (·.order_id)))
    "stg_sales_raw" "order_id" 0 run_id).1
  let db4 := (check_null_percentage db3 (some (rows.map (·.sales)))
    "stg_sales_raw" "sales" 0 run_id).1
  let db5 := (check_unique_count db4 (some (rows.map (·.customer_id)))
    "stg_sales_raw" "customer_id" 30000 run_id).1
  db5

/-- `StagingLayer.ingest_raw_data` (`layer1_staging.py`, lines 66-105).
The CSV read and `to_sql` load is the fallible work.  On success the source
logs a SUCCESS terminal write with the loaded row count and then runs the
raw-data quality checks with the run id returned by the STARTED call; on an
exception it logs a FAILED terminal write and re-raises. -/
def ingest_raw_data (db : MetaDB) (csv : Except String (List RawRow)) :
    MetaDB × Except String RunId :=
  let started := log_pipeline_run db "STAGING" "stg_sales_raw" "STARTED"
  let db1 := started.1
  let run_id := started.2
  match csv with
  | .ok rows =>
    let row_count : Int := rows.length
    let db2 := (log_pipeline_run db1 "STAGING" "stg_sales_raw" "SUCCESS"
      (some row_count)).1
    let db3 := run_raw_data_quality_checks db2 rows run_id
    (db3, .ok run_id)
  | .error e =>
    let db2 := (log_pipeline_run db1 "STAGING" "stg_sales_raw" "FAILED"
      (some 0) (some e)).1
    (db2, .error e)

/-- The uniform per-step protocol shared by every transformation step of the
three layers (e.g. `StagingLayer.clean_and_validate_data`,
`WarehouseLayer.build_date_dimension`, every `BusinessAnalysisLayer.build_*`
method).  A step's quality checks write only to `data_quality_checks`, never
to `pipeline_runs`, and are not replayed at this master level. -/
def runStep (db : MetaDB) (layer table_name : String)
    (work : Except String Int) : MetaDB × Except String RunId :=
  let started := log_pipeline_run db layer table_name "STARTED"
  let db1 := started.1
  let run_id := started.2
  match work with
  | .ok row_count =>
    ((log_pipeline_run db1 layer table_name "SUCCESS" (some row_count)).1,
      .ok run_id)
  | .error e =>
    ((log_pipeline_run db1 layer table_name "FAILED" (some 0) (some e)).1,
      .error e)

/-- Run a layer's fixed ordered step sequence, stopping at the first step
whose work raises (the step protocol re-raises, which is fatal to the
layer). -/
def runSteps (db : MetaDB) (layer : String) (names : List String)
    (works : String → Except String Int) : MetaDB × Except String Unit :=
  match names with
  | [] => (db, .ok ())
  | n :: rest =>
    match runStep db layer n (works n) with
    | (db1, .ok _) => runSteps db1 layer rest works
    | (db1, .error e) => (db1, .error e)

/-- Step order of `run_staging_pipeline` (`layer1_staging.py`, 257-298). -/
def stagingStepNames : List String := ["stg_sales_raw", "stg_sales_cleaned"]

/-- Step order of `run_warehouse_pipeline` (`layer2_warehouse.py`, 610-657). -/
def warehouseStepNames : List String :=
  ["dim_date", "dim_customer", "dim_order", "fact_sales"]

/-- Step order of `run_business_analysis_pipeline`
(`layer3_business.py`, 1213-1300). -/
def businessStepNames : List String :=
  ["monthly_metrics", "cohort_analysis", "cumulative_retention_analysis",
   "customer_ltv_analysis", "customer_segmentation", "seasonal_trends",
   "customer_lifecycle_snapshot", "campaign_targets", "business_insights"]

/-- The in-memory per-layer entry of `MasterPipelineRunner.results`. -/
structure LayerResult where
  status : String
  error : Option String
deriving DecidableEq, Repr

/-- Outcome of `MasterPipelineRunner.run_full_pipeline`: the boolean the
method returns, the final metadata store, whether
`orchestrator.close_connections()` ran (the `finally` block), and the
in-memory results map. -/
structure MasterRunResult where
  success : Bool
  db : MetaDB
  connections_closed : Bool
  layer1 : Option LayerResult
  layer2 : Option LayerResult
  layer3 : Option LayerResult
deriving DecidableEq, Repr

/-- Business phase of `run_full_pipeline` (`master_pipeline.py`, 116-163). -/
def masterBusinessPhase (db : MetaDB) (l1 l2 : Option LayerResult)
    (skip_business : Bool) (business_works : String → Except String Int) :
    MasterRunResult :=
  if skip_business then
    { success := true
      db := db
      connections_closed := true
      layer1 := l1
      layer2 := l2
      layer3 := none }
  else
    match runSteps db "BUSINESS" businessStepNames business_works with
    | (db1, .ok _) =>
      { success := true
        db := db1
        connections_closed := true
        layer1 := l1
        layer2 := l2
        layer3 := some ⟨"SUCCESS", none⟩ }
    | (db1, .error e) =>
      { success := false
        db := db1
        connections_closed := true
        layer1 := l1
        layer2 := l2
        layer3 := some ⟨"FAILED", some e⟩ }

/-- Warehouse phase of `run_full_pipeline` (`master_pipeline.py`, 90-115):
on an exception the FAILED layer result is recorded and the exception
propagates, so the business phase is never entered. -/
def masterWarehousePhase (db : MetaDB) (l1 : Option LayerResult)
    (skip_warehouse skip_business : Bool)
    (warehouse_works business_works : String → Except String Int) :
    MasterRunResult :=
  if skip_warehouse then
    masterBusinessPhase db l1 none skip_business business_works
  else
    match runSteps db "WAREHOUSE" warehouseStepNames warehouse_works with
    | (db1, .ok _) =>
      masterBusinessPhase db1 l1 (some ⟨"SUCCESS", none⟩) skip_business
        business_works
    | (db1, .error e) =>
      { success := false
        db := db1
        connections_closed := true
        layer1 := l1
        layer2 := some ⟨"FAILED", some e⟩
        layer3 := none }

/-- `MasterPipelineRunner.run_full_pipeline` (`master_pipeline.py`, 42-163):
layers run in the fixed order staging, warehouse, business, each skippable;
the first layer to raise records a FAILED result and aborts the run (the
outer handler returns False); `close_connections` runs in `finally` on every
path. -/
def run_full_pipeline (skip_staging skip_warehouse skip_business : Bool)
    (staging_works warehouse_works business_works :
      String → Except String Int) : MasterRunResult :=
  let db0 := MetaDB.init
  if skip_staging then
    masterWarehousePhase db0 none skip_warehouse skip_business
      warehouse_works business_works
  else
    match runSteps db0 "STAGING" stagingStepNames staging_works with
    | (db1, .ok _) =>
      masterWarehousePhase db1 (some ⟨"SUCCESS", none⟩) skip_warehouse
        skip_business warehouse_works business_works
    | (db1, .error e) =>
      { success := false
        db := db1
        connections_closed := true
        layer1 := some ⟨"FAILED", some e⟩
        layer2 := none
        layer3 := none }

/-!
Resource Manager instance bookkeeping.  `DataPipelineOrchestrator` owns the
four sqlite connections; the master run constructs, hands out and closes
instances.  Instances are identified by construction order within one
`run_full_pipeline` call.
-/

/-- Events observable about orchestrator instances during one
`MasterPipelineRunner.run_full_pipeline` call. -/
inductive OrchEvent where
  | construct (id : Nat)
  | layerUses (layer : String) (id : Nat)
  | close (id : Nat)
deriving DecidableEq, Repr

/-- The instance id an event uses, when it is a layer-use event. -/
def usesId (e : OrchEvent) : Option Nat :=
  match e with
  | .layerUses _ j => some j
  | _ => none

/-- Instance bookkeeping of `run_full_pipeline` (`master_pipeline.py`,
lines 42-163) together with the layer runners it calls.  Line 60 constructs
an orchestrator unconditionally.  `run_staging_pipeline`
(`layer1_staging.py`, lines 257-298) does not receive it: it constructs its
own `DataPipelineOrchestrator()` (line 261), hands that to `StagingLayer`,
and returns it; master line 68 rebinds `self.orchestrator` to the returned
instance.  When staging is skipped, the `if not self.orchestrator` guard
(lines 87-88) is a no-op because line 60 already bound one.
`run_warehouse_pipeline(self.orchestrator)` and
`run_business_analysis_pipeline(self.orchestrator)` receive the bound
instance (lines 97 and 123), and the `finally` block closes
`self.orchestrator` (lines 161-163) — only the bound instance. -/
def orchTrace (skip_staging skip_warehouse skip_business : Bool) :
    List OrchEvent :=
  let master_orch := 0
  let ev0 := [OrchEvent.construct master_orch]
  let staging_orch := 1
  let ev1 := if skip_staging then ev0
    else ev0 ++ [OrchEvent.construct staging_orch,
                 OrchEvent.layerUses "staging" staging_orch]
  let orch := if skip_staging then master_orch else staging_orch
  let ev2 := if skip_warehouse then ev1
    else ev1 ++ [OrchEvent.layerUses "warehouse" orch]
  let ev3 := if skip_business then ev2
    else ev2 ++ [OrchEvent.layerUses "business" orch]
  ev3 ++ [OrchEvent.close orch]

/-!
The business layer over warehouse data.  A `DimCustomerRow` carries the
columns of `warehouse.dim_customer` that the customer segmentation and the
lifecycle snapshot read.  Dates enter these two steps only through
`julianday` differences and a MAX over the calendar, so `last_order_jd`
carries the julian day number of `last_order_date` and `dim_date` is
presented as the list of julian day numbers of its `full_date` column where
only differences matter, and as date strings where the snapshot key matters.
The nullable SQL REAL columns are `Option ℚ`; comparisons with NULL are
false in SQL, which the `opt*` helpers encode.
-/

/-- Columns of `warehouse.dim_customer` read by
`build_customer_segmentation` and `build_customer_lifecycle_snapshot`. -/
structure DimCustomerRow where
  customer_id : Int
  total_orders : Int
  total_spent : ℚ
  last_order_jd : ℚ
  days_since_first_order : Option ℚ
  days_since_last_order : Option ℚ
deriving DecidableEq, Repr

/-- SQL `v <= b` on a nullable value (false on NULL). -/
def optLe (v : Option ℚ) (b : ℚ) : Bool :=
  match v with
  | none => false
  | some x => decide (x ≤ b)

/-- SQL `v BETWEEN lo AND hi` on a nullable value (false on NULL). -/
def optBetween (v : Option ℚ) (lo hi : ℚ) : Bool :=
  match v with
  | none => false
  | some x => decide (lo ≤ x ∧ x ≤ hi)

/-- SQL `v > b` on a nullable value (false on NULL). -/
def optGt (v : Option ℚ) (b : ℚ) : Bool :=
  match v with
  | none => false
  | some x => decide (b < x)

/-- The lifecycle-stage CASE expression of
`build_customer_lifecycle_snapshot` (`layer3_business.py`, lines 744-754);
the `IS NOT NULL` guards are subsumed by NULL comparisons being false. -/
def lifecycleStage (c : DimCustomerRow) : String :=
  if c.total_orders = 1 && optLe c.days_since_first_order 30 then "New"
  else if optLe c.days_since_last_order 30 then "Active"
  else if optBetween c.days_since_last_order 31 90 then "At Risk"
  else if optGt c.days_since_last_order 90 then "Inactive"
  else "Inactive"

/-- Powers of ten, kernel-reducible. -/
def pow10 : Nat → Int
  | 0 => 1
  | n + 1 => 10 * pow10 n

/-- Sum of rationals. -/
def ratSum (l : List ℚ) : ℚ := l.foldl ratAdd 0

/-- SQLite `ROUND(q, p)`: round half away from zero at `p` decimal
places. -/
def sqliteRound (q : ℚ) (p : Nat) : ℚ :=
  let m : Int := pow10 p
  let scaled := ratMul q ((m : Int) : ℚ)
  let half : ℚ := mkRat 1 2
  let r : Int := if 0 ≤ scaled then (ratAdd scaled half).floor
    else -((ratAdd (ratSub 0 scaled) half).floor)
  ratDiv ((r : Int) : ℚ) ((m : Int) : ℚ)

/-- A row of `customer_lifecycle_snapshot`. -/
structure SnapshotRow where
  snapshot_date : String
  lifecycle_stage : String
  customers : Nat
  share_of_base : ℚ
  avg_days_since_last_order : ℚ
deriving DecidableEq, Repr

/-- Stable-enough insertion sort by a boolean `le`; stands for SQL ORDER BY
(the claims settled here do not depend on tie order). -/
def insertLe {α : Type} (le : α → α → Bool) (x : α) : List α → List α
  | [] => [x]
  | y :: ys => if le y x then y :: insertLe le x ys else x :: y :: ys

/-- Insertion sort driver. -/
def sortByLe {α : Type} (le : α → α → Bool) : List α → List α
  | [] => []
  | x :: xs => insertLe le x (sortByLe le xs)

/-- The ORDER BY rank of lifecycle stages
(`layer3_business.py`, lines 777-784). -/
def stageRank (s : String) : Nat :=
  if s = "New" then 1
  else if s = "Active" then 2
  else if s = "At Risk" then 3
  else if s = "Inactive" then 4
  else 99

/-- The rows the snapshot INSERT produces for one snapshot date
(`layer3_business.py`, lines 734-785): stage per customer, rolled-up counts,
share of base rounded to 4 places, and the COALESCEd average of the non-null
`days_since_last_order` values rounded to 2 places. -/
def snapshotNewRows (d : String) (dim_customer : List DimCustomerRow) :
    List SnapshotRow :=
  let base := dim_customer.map fun c => (lifecycleStage c, c)
  let total_customers := base.length
  let stages := sortByLe (fun a b => decide (stageRank a ≤ stageRank b))
    (base.map Prod.fst).dedup
  stages.map fun s =>
    let group := base.filter fun p => decide (p.1 = s)
    let cst := group.length
    let vals := group.filterMap fun p => p.2.days_since_last_order
    let avg : Option ℚ :=
      match vals with
      | [] => none
      | _ :: _ => some (ratDiv (ratSum vals) ((vals.length : Nat) : ℚ))
    { snapshot_date := d
      lifecycle_stage := s
      customers := cst
      share_of_base :=
        sqliteRound (ratDiv ((cst : Nat) : ℚ) ((total_customers : Nat) : ℚ)) 4
      avg_days_since_last_order := sqliteRound (avg.getD 0) 2 }

/-- `BusinessAnalysisLayer.build_customer_lifecycle_snapshot`
(`layer3_business.py`, lines 696-804): the snapshot date is
`MAX(full_date)` over `warehouse.dim_date`; when it is NULL the step exits
without touching the table; otherwise the rows of exactly that snapshot date
are deleted and the freshly computed rows for that date inserted. -/
def build_customer_lifecycle_snapshot (dim_date : List String)
    (dim_customer : List DimCustomerRow) (table : List SnapshotRow) :
    List SnapshotRow :=
  match maxString? dim_date with
  | none => table
  | some snapshot_date =>
    (table.filter fun r => decide (r.snapshot_date ≠ snapshot_date)) ++
      snapshotNewRows snapshot_date dim_customer

/-!
RFM customer segmentation (`layer3_business.py`, lines 446-546).
-/

/-- MAX over a list of rationals (`none` on the empty list); SQL MAX of
`full_date` presented through `julianday`. -/
def maxRat? (l : List ℚ) : Option ℚ :=
  l.foldl (fun acc x =>
    match acc with
    | none => some x
    | some m => if m ≤ x then some x else some m) none

/-- SQLite NTILE(buckets) bucket number of the row at zero-based position
`k` among `n` ordered rows: the first `n % buckets` buckets hold
`n / buckets + 1` rows, the rest hold `n / buckets`. -/
def ntile (buckets n k : Nat) : Nat :=
  let q := n / buckets
  let r := n % buckets
  if k < r * (q + 1) then k / (q + 1) + 1
  else (k - r * (q + 1)) / q + r + 1

/-- The recency CASE of `build_customer_segmentation` (lines 477-484), on
the nullable `julianday(max_date) - julianday(last_order_date)`. -/
def recency_score_of (days_rel : Option ℚ) : Int :=
  if optLe days_rel 30 then 5
  else if optLe days_rel 60 then 4
  else if optLe days_rel 90 then 3
  else if optLe days_rel 180 then 2
  else 1

/-- The frequency CASE of `build_customer_segmentation` (lines 485-492). -/
def frequency_score_of (total_orders : Int) : Int :=
  if total_orders ≥ 10 then 5
  else if total_orders ≥ 5 then 4
  else if total_orders ≥ 3 then 3
  else if total_orders ≥ 2 then 2
  else 1

/-- The segment CASE of `build_customer_segmentation` (lines 497-509). -/
def rfm_segment_label (r f m : Int) : String :=
  if r ≥ 4 ∧ f ≥ 4 ∧ m ≥ 4 then "Champions"
  else if r ≥ 3 ∧ f ≥ 3 ∧ m ≥ 3 then "Loyal Customers"
  else if r ≥ 4 ∧ f ≤ 2 then "New Customers"
  else if r ≤ 3 ∧ f ≥ 3 then "At Risk"
  else if r ≤ 2 ∧ f ≤ 2 ∧ m ≥ 3 then "Cannot Lose Them"
  else if r ≤ 2 then "Lost Customers"
  else "Others"

/-- The description CASE (lines 512-520; the SQL text with an escaped
apostrophe is paraphrased without one). -/
def segment_description_of (seg : String) : String :=
  if seg = "Champions" then "Best customers who bought recently and frequently"
  else if seg = "Loyal Customers" then "Regular customers with good value"
  else if seg = "New Customers" then "Recent customers with potential"
  else if seg = "At Risk" then "Good customers who have not purchased recently"
  else if seg = "Cannot Lose Them" then "High-value customers at risk of churning"
  else if seg = "Lost Customers" then "Customers who have not purchased in long time"
  else "General customer segment"

/-- The strategy CASE (lines 521-529). -/
def recommended_strategy_of (seg : String) : String :=
  if seg = "Champions" then "Upsell premium products, ask for reviews"
  else if seg = "Loyal Customers" then "Recommend related products, loyalty programs"
  else if seg = "New Customers" then "Onboarding campaigns, product education"
  else if seg = "At Risk" then "Reactivation campaigns with discounts"
  else if seg = "Cannot Lose Them" then "Immediate intervention, VIP treatment"
  else if seg = "Lost Customers" then "Win-back campaigns with strong incentives"
  else "Standard marketing approach"

/-- A row of `customer_segmentation`. -/
structure SegRow where
  customer_id : Int
  recency_score : Int
  frequency_score : Int
  monetary_score : Int
  rfm_segment : String
  segment_description : String
  recommended_strategy : String
deriving DecidableEq, Repr

/-- `BusinessAnalysisLayer.build_customer_segmentation`
(`layer3_business.py`, lines 446-546): recency relative to the dataset MAX
date (NULL when the calendar is empty), frequency from `total_orders`,
monetary as NTILE(5) over `total_spent` order, and the segment label with
its description and strategy. -/
def build_customer_segmentation (dim_customer : List DimCustomerRow)
    (dim_date_jds : List ℚ) : List SegRow :=
  let max_date := maxRat? dim_date_jds
  let sorted := sortByLe (fun a b => decide (a.total_spent ≤ b.total_spent))
    dim_customer
  let n := sorted.length
  sorted.enum.map fun p =>
    let c := p.2
    let days_rel : Option ℚ := max_date.map fun mx => ratSub mx c.last_order_jd
    let r := recency_score_of days_rel
    let f := frequency_score_of c.total_orders
    let m : Int := (ntile 5 n p.1 : Nat)
    let seg := rfm_segment_label r f m
    { customer_id := c.customer_id
      recency_score := r
      frequency_score := f
      monetary_score := m
      rfm_segment := seg
      segment_description := segment_description_of seg
      recommended_strategy := recommended_strategy_of seg }

/-- The fixed segment vocabulary of the segmentation CASE. -/
def segmentNames : List String :=
  ["Champions", "Loyal Customers", "New Customers", "At Risk",
   "Cannot Lose Them", "Lost Customers", "Others"]

/-!
Cumulative retention analysis (`layer3_business.py`, lines 289-360).  This
step reads `warehouse.fact_sales` joined with `warehouse.dim_date` (for
year/month) and `warehouse.dim_customer` (for the acquisition cohort).  The
warehouse built both from the same VALID staging rows
(`layer2_warehouse.py`): `dim_customer.first_order_cohort_month` is
`strftime(%Y-%m, MIN(date_parsed))` per customer, and `fact_sales` holds one
row per VALID staging row.  The embedding therefore takes the VALID staging
rows (`FactRow`) as input and derives both, exactly as the two warehouse
steps do.  A calendar date is a year/month/day triple ordered
lexicographically (the SQL TEXT date order); a cohort month is the year and
month of the minimal date (the `%Y-%m` formatting is injective on year/month
pairs).
-/

/-- A calendar date (`date_parsed` of a VALID `stg_sales_cleaned` row). -/
structure SDate where
  y : Int
  m : Int
  d : Int
deriving DecidableEq, Repr

/-- Lexicographic date comparison: the SQL TEXT order of ISO dates. -/
def dateLeB (a b : SDate) : Bool :=
  if a.y = b.y then
    (if a.m = b.m then decide (a.d ≤ b.d) else decide (a.m < b.m))
  else decide (a.y < b.y)

/-- One step of the SQL MIN fold over dates. -/
def minDateStep (acc : Option SDate) (dt : SDate) : Option SDate :=
  match acc with
  | none => some dt
  | some mn => if dateLeB dt mn then some dt else some mn

/-- SQL MIN over dates (`none` of the empty list). -/
def minDateFold (l : List SDate) : Option SDate :=
  l.foldl minDateStep none

/-- One VALID staging row as `fact_sales` and the retention query see it. -/
structure FactRow where
  customer_id : Int
  order_id : Int
  sales_amount : ℚ
  date : SDate
deriving DecidableEq, Repr

/-- The distinct customers of `dim_customer` (one row per customer of the
VALID staging rows, `layer2_warehouse.py` GROUP BY customer_id). -/
def factCustomers (facts : List FactRow) : List Int :=
  (facts.map (·.customer_id)).dedup

/-- The dates of one customer. -/
def datesOf (facts : List FactRow) (c : Int) : List SDate :=
  (facts.filter fun f => decide (f.customer_id = c)).map (·.date)

/-- `MIN(date_parsed)` of one customer: the first-order date
(`layer2_warehouse.py`, line 243). -/
def firstOrderDate? (facts : List FactRow) (c : Int) : Option SDate :=
  minDateFold (datesOf facts c)

/-- `first_order_cohort_month` as the (year, month) pair of the first-order
date (`strftime(%Y-%m, MIN(date_parsed))`, line 249; the formatting is
injective on the pair). -/
def cohortMonthOf? (facts : List FactRow) (c : Int) : Option (Int × Int) :=
  (firstOrderDate? facts c).map fun dt => (dt.y, dt.m)

/-- `(d.year - c.first_order_cohort_year) * 12 + (d.month - cohort month)`
(`layer3_business.py`, lines 323-325). -/
def monthsSince (cohort : Int × Int) (dt : SDate) : Int :=
  (dt.y - cohort.1) * 12 + (dt.m - cohort.2)

/-- `cohort_sizes`: COUNT(DISTINCT customer_id) of `dim_customer` per
non-null cohort month (lines 306-313). -/
def cohortSize (facts : List FactRow) (mo : Int × Int) : Nat :=
  ((factCustomers facts).filter fun c =>
    decide (cohortMonthOf? facts c = some mo)).length

/-- Whether fact `f` is an in-window activity of customer `c` of cohort
`mo`: `months_since BETWEEN 0 AND w` (lines 323-325). -/
def inWindowB (mo : Int × Int) (w : Int) (c : Int) (f : FactRow) : Bool :=
  decide (f.customer_id = c) && decide (0 ≤ monthsSince mo f.date) &&
    decide (monthsSince mo f.date ≤ w)

/-- `cohort_activity.active_customers`: COUNT(DISTINCT f.customer_id) of the
cohort with some activity in the window (lines 314-327). -/
def activeCustomers (facts : List FactRow) (mo : Int × Int) (w : Int) : Nat :=
  ((factCustomers facts).filter fun c =>
    decide (cohortMonthOf? facts c = some mo) &&
      facts.any (inWindowB mo w c)).length

/-- The in-window facts of a cohort (for the revenue and order columns). -/
def windowFacts (facts : List FactRow) (mo : Int × Int) (w : Int) :
    List FactRow :=
  facts.filter fun f =>
    decide (cohortMonthOf? facts f.customer_id = some mo) &&
      decide (0 ≤ monthsSince mo f.date) && decide (monthsSince mo f.date ≤ w)

/-- A row of `cumulative_retention_analysis`; the cohort month stands for
its `%Y-%m` string. -/
structure RetRow where
  cohort_month : Int × Int
  retention_window_months : Int
  cohort_size : Nat
  active_customers : Nat
  cumulative_retention_rate : ℚ
  avg_purchase_frequency : ℚ
  total_revenue : ℚ
  avg_customer_value : ℚ
deriving DecidableEq, Repr

/-- The rows one window's INSERT produces (lines 300-341): one row per
cohort month having in-window activity and cohort size at least 10, with
`cumulative_retention_rate = ROUND(active/size*100, 2)`. -/
def retentionWindowRows (facts : List FactRow) (w : Int) : List RetRow :=
  let cohorts := ((factCustomers facts).filterMap
    (cohortMonthOf? facts)).dedup
  (cohorts.filter fun mo =>
      decide (0 < activeCustomers facts mo w) &&
        decide (10 ≤ cohortSize facts mo)).map fun mo =>
    let size := cohortSize facts mo
    let active := activeCustomers facts mo w
    let wf := windowFacts facts mo w
    let total_orders := ((wf.map (·.order_id)).dedup).length
    let total_revenue := ratSum (wf.map (·.sales_amount))
    { cohort_month := mo
      retention_window_months := w
      cohort_size := size
      active_customers := active
      cumulative_retention_rate :=
        sqliteRound (ratMul (ratDiv ((active : Nat) : ℚ) ((size : Nat) : ℚ))
          100) 2
      avg_purchase_frequency :=
        sqliteRound (ratDiv ((total_orders : Nat) : ℚ) ((active : Nat) : ℚ)) 2
      total_revenue := total_revenue
      avg_customer_value :=
        sqliteRound (ratDiv total_revenue ((active : Nat) : ℚ)) 2 }

/-- `BusinessAnalysisLayer.build_cumulative_retention_analysis`
(`layer3_business.py`, lines 289-360): the table is cleared, then the INSERT
runs once per window, `for window_months in [3, 12, 18]`. -/
def build_cumulative_retention_analysis (facts : List FactRow) : List RetRow :=
  retentionWindowRows facts 3 ++ retentionWindowRows facts 12 ++
    retentionWindowRows facts 18

/-- The cumulative retention rate stored for a cohort month and window, if
present (the table is keyed by that pair). -/
def retRate? (facts : List FactRow) (mo : Int × Int) (w : Int) : Option ℚ :=
  ((build_cumulative_retention_analysis facts).find? fun r =>
    decide (r.cohort_month = mo) && decide (r.retention_window_months = w)).map
    (·.cumulative_retention_rate)

/-- A ten-customer January-2021 cohort, used to instantiate the retention
theorem on concrete data. -/
def factsExample : List FactRow :=
  (List.range 10).map fun i =>
    ⟨Int.ofNat i, Int.ofNat i, 10, ⟨2021, 1, 1 + Int.ofNat i⟩⟩

/-!
Theorems.  First the supporting lemmas about the ledger clock, then the
claim theorems.
-/

theorem den_cast_ne (a : ℚ) : ((a.den : ℚ)) ≠ 0 := by
  exact_mod_cast a.den_nz

theorem num_cast_eq (a : ℚ) : (a.num : ℚ) = a * a.den :=
  (div_eq_iff (den_cast_ne a)).1 (Rat.num_div_den a)

/-- The executable multiplication agrees with the field multiplication. -/
theorem ratMul_eq (a b : ℚ) : ratMul a b = a * b := by
  unfold ratMul
  rw [Rat.divInt_eq_div]
  push_cast
  rw [div_eq_iff (mul_ne_zero (den_cast_ne a) (den_cast_ne b)),
    num_cast_eq, num_cast_eq]
  ring

/-- The executable subtraction agrees with the field subtraction. -/
theorem ratSub_eq (a b : ℚ) : ratSub a b = a - b := by
  unfold ratSub
  rw [Rat.divInt_eq_div]
  push_cast
  rw [div_eq_iff (mul_ne_zero (den_cast_ne a) (den_cast_ne b)),
    num_cast_eq, num_cast_eq]
  ring

/-- The executable addition agrees with the field addition. -/
theorem ratAdd_eq (a b : ℚ) : ratAdd a b = a + b := by
  unfold ratAdd
  rw [Rat.divInt_eq_div]
  push_cast
  rw [div_eq_iff (mul_ne_zero (den_cast_ne a) (den_cast_ne b)),
    num_cast_eq, num_cast_eq]
  ring

/-- The executable division agrees with the field division. -/
theorem ratDiv_eq (a b : ℚ) : ratDiv a b = a / b := by
  unfold ratDiv
  rcases eq_or_ne b 0 with hb | hb
  · subst hb
    simp
  · have hbn : b.num ≠ 0 := Rat.num_ne_zero.2 hb
    have hbnq : ((b.num : ℚ)) ≠ 0 := by exact_mod_cast hbn
    rw [Rat.divInt_eq_div]
    push_cast
    rw [div_eq_div_iff (mul_ne_zero (den_cast_ne a) hbnq) hb,
      num_cast_eq, num_cast_eq]
    ring

theorem clockInv_init : ClockInv MetaDB.init := by
  intro r hr
  simp [MetaDB.init] at hr

theorem clockInv_log_pipeline_run (db : MetaDB) (h : ClockInv db)
    (layer table_name status : String) (rc : Option Int) (em : Option String) :
    ClockInv (log_pipeline_run db layer table_name status rc em).1 := by
  intro r hr
  by_cases hs : status = "STARTED" <;> simp [log_pipeline_run, hs] at hr ⊢
  · rcases hr with hr | hr
    · exact Nat.lt_of_lt_of_le (h r hr) (by omega)
    · subst hr; simp
  · rcases hr with ⟨r₀, hr₀, hmap⟩
    by_cases hid : r₀.run_id = ⟨layer, table_name, db.clock⟩ <;>
        simp [hid] at hmap <;> subst hmap
    · simp [hid]
    · exact Nat.lt_of_lt_of_le (h r₀ hr₀) (by omega)

/-- Root cause of the two-phase-write defect: a terminal
(non-`STARTED`) call to `log_pipeline_run` regenerates the run id from the
current clock, so the `UPDATE ... WHERE run_id = ?` matches no existing row
and the ledger rows are left completely unchanged. -/
theorem log_pipeline_run_terminal_noop (db : MetaDB) (h : ClockInv db)
    (layer table_name status : String) (rc : Option Int) (em : Option String)
    (hs : status ≠ "STARTED") :
    (log_pipeline_run db layer table_name status rc em).1.pipeline_runs =
      db.pipeline_runs := by
  unfold log_pipeline_run
  rw [if_neg hs]
  show db.pipeline_runs.map _ = db.pipeline_runs
  have hfix : ∀ r ∈ db.pipeline_runs,
      (if r.run_id = (⟨layer, table_name, db.clock⟩ : RunId) then
        { r with
            status := status
            end_time := some (db.clock + 1)
            row_count := rc
            error_message := em }
      else r) = r := by
    intro r hr
    have hlt : r.run_id.tick < db.clock := h r hr
    rw [if_neg]
    intro he
    rw [he] at hlt
    simp at hlt
  exact (List.map_congr_left hfix).trans (List.map_id _)

/-- C1: the claim states that the terminal ledger write of a step updates the
row inserted at STARTED (keyed by a run id issued once), so the row ends in
SUCCESS or FAILED with end_time set.  The code instead regenerates the run id
from the clock on the terminal call, so the UPDATE matches no row: after a
successful `ingest_raw_data` the only `pipeline_runs` row still has status
STARTED, no end_time and no row_count, even though the SUCCESS terminal write
was issued. -/
theorem C1_terminal_update_misses_started_row :
    (ingest_raw_data MetaDB.init
        (Except.ok [⟨some 7, some 1, some 5⟩])).2 =
      Except.ok ⟨"STAGING", "stg_sales_raw", 0⟩ ∧
    (ingest_raw_data MetaDB.init
        (Except.ok [⟨some 7, some 1, some 5⟩])).1.pipeline_runs =
      [{ run_id := ⟨"STAGING", "stg_sales_raw", 0⟩
         layer := "STAGING"
         table_name := "stg_sales_raw"
         status := "STARTED"
         start_time := some 1
         end_time := none
         row_count := none
         error_message := none }] := by
  constructor <;> rfl

/-- C2: with the warehouse `dim_date` step raising a malformed join, the
orchestrator result is FAILED, connections are released, the in-memory layer
result records the error, and no BUSINESS row is ever logged — but, contrary
to the claim, the ledger row of the failing step remains STARTED with a null
error_message, because the FAILED terminal write regenerated its run id and
updated no row. -/
theorem C2_warehouse_failure_propagation :
    (run_full_pipeline false false false (fun _ => Except.ok 1200)
        (fun n => if n = "dim_date" then Except.error "malformed join"
          else Except.ok 1)
        (fun _ => Except.ok 1)).success = false ∧
    (run_full_pipeline false false false (fun _ => Except.ok 1200)
        (fun n => if n = "dim_date" then Except.error "malformed join"
          else Except.ok 1)
        (fun _ => Except.ok 1)).connections_closed = true ∧
    (run_full_pipeline false false false (fun _ => Except.ok 1200)
        (fun n => if n = "dim_date" then Except.error "malformed join"
          else Except.ok 1)
        (fun _ => Except.ok 1)).layer2 =
      some ⟨"FAILED", some "malformed join"⟩ ∧
    (run_full_pipeline false false false (fun _ => Except.ok 1200)
        (fun n => if n = "dim_date" then Except.error "malformed join"
          else Except.ok 1)
        (fun _ => Except.ok 1)).db.pipeline_runs.filter
        (fun p => p.layer = "BUSINESS") = [] ∧
    (run_full_pipeline false false false (fun _ => Except.ok 1200)
        (fun n => if n = "dim_date" then Except.error "malformed join"
          else Except.ok 1)
        (fun _ => Except.ok 1)).db.pipeline_runs.filter
        (fun p => p.table_name = "dim_date") =
      [{ run_id := ⟨"WAREHOUSE", "dim_date", 8⟩
         layer := "WAREHOUSE"
         table_name := "dim_date"
         status := "STARTED"
         start_time := some 9
         end_time := none
         row_count := none
         error_message := none }] := by
  refine ⟨rfl, rfl, rfl, ?_, ?_⟩ <;> rfl

/-- C3: a quality check whose predicate fails (here a 100 percent null
customer_id column against a 0 percent rule) is recorded as FAILED in the
check ledger with a real measured value (not the ERROR sentinel), and the
step does not raise; but, contrary to the claim, the enclosing step's ledger
status is STARTED instead of SUCCESS, because the SUCCESS terminal write
regenerated its run id and updated no row. -/
theorem C3_failed_check_nonfatal_but_row_not_success :
    ((ingest_raw_data MetaDB.init
          (Except.ok [⟨none, some 1, some 5⟩])).1.quality_checks.filter
        (fun c => c.check_name = "customer_id_null_check")).map
        (fun c => (c.status, decide (c.actual_value = "ERROR"), c.error_details)) =
      [("FAILED", false, none)] ∧
    (ingest_raw_data MetaDB.init
        (Except.ok [⟨none, some 1, some 5⟩])).2 =
      Except.ok ⟨"STAGING", "stg_sales_raw", 0⟩ ∧
    (ingest_raw_data MetaDB.init
        (Except.ok [⟨none, some 1, some 5⟩])).1.pipeline_runs.map
        (fun r => r.status) = ["STARTED"] := by
  refine ⟨?_, rfl, rfl⟩
  decide

/-- C4: each of the four quality-check library operations is non-raising:
whenever its internal evaluation raises, the operation records exactly one
FAILED check row with actual_value ERROR and populated error_details, leaves
the run ledger untouched, and returns false (the functions are total, so the
exception never propagates). -/
theorem C4_checks_catch_internal_errors
    (db : MetaDB) (rid : RunId) (tn cn mind maxd : String)
    (t1 : Option (List Int)) (mr : Int)
    (t2 : Option (List (Option ℚ))) (mp : ℚ)
    (t3 : Option (List (Option ℚ))) (mu : Int)
    (t4 : Option (List (Option String))) :
    (∀ e, rowCountEval t1 = .error e →
      (check_row_count db t1 tn mr rid).2 = false ∧
      (check_row_count db t1 tn mr rid).1.pipeline_runs = db.pipeline_runs ∧
      ∃ row, (check_row_count db t1 tn mr rid).1.quality_checks =
          db.quality_checks ++ [row] ∧
        row.actual_value = "ERROR" ∧ row.status = "FAILED" ∧
        row.error_details = some e) ∧
    (∀ e, nullPctEval t2 = .error e →
      (check_null_percentage db t2 tn cn mp rid).2 = false ∧
      (check_null_percentage db t2 tn cn mp rid).1.pipeline_runs =
        db.pipeline_runs ∧
      ∃ row, (check_null_percentage db t2 tn cn mp rid).1.quality_checks =
          db.quality_checks ++ [row] ∧
        row.actual_value = "ERROR" ∧ row.status = "FAILED" ∧
        row.error_details = some e) ∧
    (∀ e, uniqueCountEval t3 = .error e →
      (check_unique_count db t3 tn cn mu rid).2 = false ∧
      (check_unique_count db t3 tn cn mu rid).1.pipeline_runs =
        db.pipeline_runs ∧
      ∃ row, (check_unique_count db t3 tn cn mu rid).1.quality_checks =
          db.quality_checks ++ [row] ∧
        row.actual_value = "ERROR" ∧ row.status = "FAILED" ∧
        row.error_details = some e) ∧
    (∀ e, dateRangeEval t4 mind maxd = .error e →
      (check_date_range db t4 tn cn mind maxd rid).2 = false ∧
      (check_date_range db t4 tn cn mind maxd rid).1.pipeline_runs =
        db.pipeline_runs ∧
      ∃ row, (check_date_range db t4 tn cn mind maxd rid).1.quality_checks =
          db.quality_checks ++ [row] ∧
        row.actual_value = "ERROR" ∧ row.status = "FAILED" ∧
        row.error_details = some e) := by
  refine ⟨fun e he => ?_, fun e he => ?_, fun e he => ?_, fun e he => ?_⟩ <;>
    simp [check_row_count, check_null_percentage, check_unique_count,
      check_date_range, he, log_data_quality_check]

theorem C4_witness :
    (check_row_count MetaDB.init (none : Option (List Int))
      "stg_sales_raw" 1000 ⟨"STAGING", "stg_sales_raw", 0⟩).2 = false ∧
    (check_null_percentage MetaDB.init none
      "stg_sales_raw" "customer_id" 0 ⟨"STAGING", "stg_sales_raw", 0⟩).2 = false ∧
    (check_unique_count MetaDB.init none
      "stg_sales_raw" "customer_id" 30000 ⟨"STAGING", "stg_sales_raw", 0⟩).2 = false ∧
    (check_date_range MetaDB.init none "stg_sales_cleaned" "date_parsed"
      "2020-01-01" "2025-12-31" ⟨"STAGING", "stg_sales_cleaned", 0⟩).2 = false := by
  have h1 := C4_checks_catch_internal_errors MetaDB.init
    ⟨"STAGING", "stg_sales_raw", 0⟩ "stg_sales_raw" "customer_id"
    "2020-01-01" "2025-12-31" none 1000 none 0 none 30000 none
  have h2 := C4_checks_catch_internal_errors MetaDB.init
    ⟨"STAGING", "stg_sales_cleaned", 0⟩ "stg_sales_cleaned" "date_parsed"
    "2020-01-01" "2025-12-31" none 1000 none 0 none 30000 none
  exact ⟨(h1.1 _ rfl).1, (h1.2.1 _ rfl).1, (h1.2.2.1 _ rfl).1,
    (h2.2.2.2 _ rfl).1⟩

/-- C5: on an existing table, check_null_percentage returns PASSED exactly
when (null_count / total_rows) * 100 is at most max_null_pct (for zero rows
the source defines the percentage as 0, which coincides with the formula in
ℚ); and on a zero-row table with any max_null_pct ≥ 0 the check is PASSED
and records a PASSED row, not an error. -/
theorem C5_null_percentage_boundary (db : MetaDB) (rid : RunId)
    (tn cn : String) (vals : List (Option ℚ)) (mx : ℚ) :
    ((check_null_percentage db (some vals) tn cn mx rid).2 = true ↔
      ((vals.filter fun v => v = none).length : ℚ) / (vals.length : ℚ) * 100
        ≤ mx) ∧
    (vals = [] → 0 ≤ mx →
      (check_null_percentage db (some vals) tn cn mx rid).2 = true ∧
      ∃ row, (check_null_percentage db (some vals) tn cn mx rid).1.quality_checks
          = db.quality_checks ++ [row] ∧
        row.status = "PASSED" ∧ row.actual_value ≠ "ERROR" ∧
        row.error_details = none) := by
  have hiff : (check_null_percentage db (some vals) tn cn mx rid).2 = true ↔
      ((vals.filter fun v => v = none).length : ℚ) / (vals.length : ℚ) * 100
        ≤ mx := by
    unfold check_null_percentage nullPctEval
    rcases Nat.eq_zero_or_pos vals.length with h0 | hpos
    · have hv : vals = [] := List.length_eq_zero.1 h0
      subst hv
      simp
    · have hne : vals.length ≠ 0 := Nat.pos_iff_ne_zero.1 hpos
      by_cases hc :
          ratMul (ratDiv ((vals.filter fun v => v = none).length : ℚ)
            (vals.length : ℚ)) 100 ≤ mx <;>
        simp [hpos, hc, ratMul_eq, ratDiv_eq] at *
  refine ⟨hiff, fun hv hmx => ?_⟩
  subst hv
  have hpass : (check_null_percentage db (some ([] : List (Option ℚ))) tn cn
      mx rid).2 = true := by
    rw [hiff]
    simpa using hmx
  refine ⟨hpass, ?_⟩
  have hzero : ¬ ((0 : Nat) > 0) := by omega
  unfold check_null_percentage nullPctEval at hpass ⊢
  simp only [List.filter_nil, List.length_nil, hzero, if_false] at hpass ⊢
  by_cases hc : (0 : ℚ) ≤ mx
  · simp [hc, log_data_quality_check]
    decide
  · simp [hc] at hpass

theorem C5_witness :
    (check_null_percentage MetaDB.init (some [])
      "stg_sales_raw" "customer_id" 0 ⟨"STAGING", "stg_sales_raw", 0⟩).2
      = true := by
  exact ((C5_null_percentage_boundary MetaDB.init
    ⟨"STAGING", "stg_sales_raw", 0⟩ "stg_sales_raw" "customer_id" [] 0).2
    rfl (by norm_num)).1

/-- C10: when the date column holds zero non-null values (in particular on
an empty table) the MIN/MAX query returns NULLs, the Python comparison
raises, and check_date_range records a FAILED check row with actual_value
ERROR and returns false — it never returns PASSED. -/
theorem C10_date_range_empty_is_error (db : MetaDB) (rid : RunId)
    (tn dc mind maxd : String) (vals : List (Option String))
    (h : vals.filterMap id = []) :
    (check_date_range db (some vals) tn dc mind maxd rid).2 = false ∧
    ∃ row, (check_date_range db (some vals) tn dc mind maxd rid).1.quality_checks
        = db.quality_checks ++ [row] ∧
      row.actual_value = "ERROR" ∧ row.status = "FAILED" ∧
      row.error_details.isSome = true := by
  have heval : dateRangeEval (some vals) mind maxd =
      .error "TypeError: unorderable types NoneType and str" := by
    dsimp only [dateRangeEval]
    rw [h]
    rfl
  simp [check_date_range, heval, log_data_quality_check]

theorem C10_witness :
    (check_date_range MetaDB.init (some [none]) "stg_sales_cleaned"
      "date_parsed" "2020-01-01" "2025-12-31"
      ⟨"STAGING", "stg_sales_cleaned", 0⟩).2 = false := by
  exact (C10_date_range_empty_is_error MetaDB.init
    ⟨"STAGING", "stg_sales_cleaned", 0⟩ "stg_sales_cleaned" "date_parsed"
    "2020-01-01" "2025-12-31" [none] rfl).1

/-- C8: counterexample to the claim as stated.  In a run with no layers
skipped, two orchestrator instances are constructed: the master builds one
(id 0), but `run_staging_pipeline` does not receive it — it constructs its
own (id 1), the staging executor uses that one, the master substitutes it
for its own, and the master's original instance is never closed. -/
theorem C8_staging_constructs_own_instance :
    orchTrace false false false =
      [OrchEvent.construct 0, OrchEvent.construct 1,
       OrchEvent.layerUses "staging" 1, OrchEvent.layerUses "warehouse" 1,
       OrchEvent.layerUses "business" 1, OrchEvent.close 1] ∧
    OrchEvent.close 0 ∉ orchTrace false false false := by
  constructor <;> decide

/-- C8 amended: in every run all layer executors that run do use one and the
same orchestrator instance (the one the staging runner constructed when
staging runs, the master-built one otherwise), so later layers see earlier
layers writes without reopening stores, and that shared instance is closed
at the end. -/
theorem C8_layers_share_one_instance (s w b : Bool) :
    ∃ i, (∀ e ∈ orchTrace s w b, usesId e = none ∨ usesId e = some i) ∧
      OrchEvent.close i ∈ orchTrace s w b := by
  cases s <;> cases w <;> cases b <;>
    first
      | exact ⟨1, by decide, by decide⟩
      | exact ⟨0, by decide, by decide⟩

theorem C8_layers_share_one_instance_witness :
    ∃ i, (∀ e ∈ orchTrace false false false,
        usesId e = none ∨ usesId e = some i) ∧
      OrchEvent.close i ∈ orchTrace false false false :=
  C8_layers_share_one_instance false false false

theorem snapshotNewRows_date (d : String) (dc : List DimCustomerRow) :
    ∀ r ∈ snapshotNewRows d dc, r.snapshot_date = d := by
  intro r hr
  unfold snapshotNewRows at hr
  simp only [List.mem_map] at hr
  obtain ⟨s, hs, rfl⟩ := hr
  rfl

/-- C9: the lifecycle snapshot step keyed by the latest warehouse calendar
date `d` is a point-in-time upsert: the rows of every other snapshot date
are left exactly as they were, and re-running the step against the same
warehouse state is a no-op on the resulting table. -/
theorem C9_snapshot_point_in_time_upsert (dim_date : List String)
    (dc : List DimCustomerRow) (table : List SnapshotRow) (d : String)
    (h : maxString? dim_date = some d) :
    ((build_customer_lifecycle_snapshot dim_date dc table).filter
        fun r => decide (r.snapshot_date ≠ d)) =
      (table.filter fun r => decide (r.snapshot_date ≠ d)) ∧
    build_customer_lifecycle_snapshot dim_date dc
        (build_customer_lifecycle_snapshot dim_date dc table) =
      build_customer_lifecycle_snapshot dim_date dc table := by
  have hnew : (snapshotNewRows d dc).filter
      (fun r => decide (r.snapshot_date ≠ d)) = [] := by
    rw [List.filter_eq_nil_iff]
    intro r hr
    simp [snapshotNewRows_date d dc r hr]
  have hkept : ∀ t : List SnapshotRow,
      ((t.filter fun r => decide (r.snapshot_date ≠ d)).filter
        fun r => decide (r.snapshot_date ≠ d)) =
      t.filter fun r => decide (r.snapshot_date ≠ d) := by
    intro t
    rw [List.filter_filter]
    simp
  have heq : ∀ t, build_customer_lifecycle_snapshot dim_date dc t =
      (t.filter fun r => decide (r.snapshot_date ≠ d)) ++
        snapshotNewRows d dc := by
    intro t
    unfold build_customer_lifecycle_snapshot
    rw [h]
  constructor
  · rw [heq, List.filter_append, hkept, hnew, List.append_nil]
  · rw [heq, heq, List.filter_append, hkept, hnew, List.append_nil]

theorem C9_snapshot_witness :
    ((build_customer_lifecycle_snapshot ["2021-01-01", "2021-06-30"]
        [⟨1, 1, 10, 100, some 5, some 5⟩]
        [⟨"2021-05-31", "Active", 3, 1, 2⟩]).filter
      fun r => decide (r.snapshot_date ≠ "2021-06-30")) =
      ([⟨"2021-05-31", "Active", 3, 1, 2⟩] : List SnapshotRow).filter
        (fun r => decide (r.snapshot_date ≠ "2021-06-30")) ∧
    build_customer_lifecycle_snapshot ["2021-01-01", "2021-06-30"]
        [⟨1, 1, 10, 100, some 5, some 5⟩]
        (build_customer_lifecycle_snapshot ["2021-01-01", "2021-06-30"]
          [⟨1, 1, 10, 100, some 5, some 5⟩]
          [⟨"2021-05-31", "Active", 3, 1, 2⟩]) =
      build_customer_lifecycle_snapshot ["2021-01-01", "2021-06-30"]
        [⟨1, 1, 10, 100, some 5, some 5⟩]
        [⟨"2021-05-31", "Active", 3, 1, 2⟩] :=
  C9_snapshot_point_in_time_upsert ["2021-01-01", "2021-06-30"]
    [⟨1, 1, 10, 100, some 5, some 5⟩] [⟨"2021-05-31", "Active", 3, 1, 2⟩]
    "2021-06-30" (by decide)

theorem ntile5_bounds (n k : Nat) (hk : k < n) :
    1 ≤ ntile 5 n k ∧ ntile 5 n k ≤ 5 := by
  unfold ntile
  obtain ⟨q, r, hn, hr, hq5, hr5⟩ :
      ∃ q r, 5 * q + r = n ∧ r < 5 ∧ n / 5 = q ∧ n % 5 = r :=
    ⟨n / 5, n % 5, Nat.div_add_mod n 5, Nat.mod_lt _ (by omega), rfl, rfl⟩
  rw [hq5, hr5]
  by_cases hcase : k < r * (q + 1)
  · rw [if_pos hcase]
    have hdiv : k / (q + 1) < r :=
      Nat.div_lt_of_lt_mul (by rw [Nat.mul_comm]; exact hcase)
    generalize he : k / (q + 1) = e at hdiv ⊢
    omega
  · rw [if_neg hcase]
    rcases Nat.eq_zero_or_pos q with hq0 | hq0
    · exfalso
      rw [hq0] at hcase hn
      omega
    · have hAB : r * (q + 1) + q * (5 - r) = n := by
        have h5 : r ≤ 5 := Nat.le_of_lt hr
        zify [h5]
        have hn2 : (5 : ℤ) * (q : ℤ) + (r : ℤ) = (n : ℤ) := by
          exact_mod_cast hn
        ring_nf
        ring_nf at hn2
        omega
      have ht : k - r * (q + 1) < q * (5 - r) := by omega
      have hdiv : (k - r * (q + 1)) / q < 5 - r := Nat.div_lt_of_lt_mul ht
      generalize he : (k - r * (q + 1)) / q = f at hdiv ⊢
      omega

theorem recency_score_of_bounds (v : Option ℚ) :
    1 ≤ recency_score_of v ∧ recency_score_of v ≤ 5 := by
  unfold recency_score_of
  split_ifs <;> omega

theorem frequency_score_of_bounds (t : Int) :
    1 ≤ frequency_score_of t ∧ frequency_score_of t ≤ 5 := by
  unfold frequency_score_of
  split_ifs <;> omega

theorem rfm_segment_label_mem (r f m : Int) :
    rfm_segment_label r f m ∈ segmentNames := by
  unfold rfm_segment_label segmentNames
  split_ifs <;> simp

theorem mem_enumFrom_bounds {α : Type} :
    ∀ (l : List α) (i : Nat) (p : Nat × α), p ∈ l.enumFrom i →
      i ≤ p.1 ∧ p.1 < i + l.length ∧ p.2 ∈ l := by
  intro l
  induction l with
  | nil => intro i p hp; simp [List.enumFrom] at hp
  | cons x xs ih =>
    intro i p hp
    rw [List.enumFrom] at hp
    rcases List.mem_cons.1 hp with hp | hp
    · subst hp
      simp
    · obtain ⟨h1, h2, h3⟩ := ih (i + 1) p hp
      exact ⟨by omega, by simp; omega, List.mem_cons_of_mem x h3⟩

/-- C7: every row of the customer segmentation output has recency,
frequency and monetary scores that are integers between 1 and 5, and a
segment drawn from the fixed vocabulary of the segmentation CASE. -/
theorem C7_rfm_scores_bounded (dc : List DimCustomerRow) (jds : List ℚ) :
    ∀ row ∈ build_customer_segmentation dc jds,
      (1 ≤ row.recency_score ∧ row.recency_score ≤ 5) ∧
      (1 ≤ row.frequency_score ∧ row.frequency_score ≤ 5) ∧
      (1 ≤ row.monetary_score ∧ row.monetary_score ≤ 5) ∧
      row.rfm_segment ∈ segmentNames := by
  intro row hrow
  unfold build_customer_segmentation at hrow
  simp only [List.mem_map] at hrow
  obtain ⟨p, hp, hrow⟩ := hrow
  have hk : p.1 <
      (sortByLe (fun a b => decide (a.total_spent ≤ b.total_spent)) dc).length := by
    have := mem_enumFrom_bounds _ 0 p (by simpa [List.enum] using hp)
    omega
  have hmon := ntile5_bounds _ p.1 hk
  subst hrow
  dsimp only
  refine ⟨recency_score_of_bounds _, frequency_score_of_bounds _, ⟨?_, ?_⟩, ?_⟩
  · exact_mod_cast hmon.1
  · exact_mod_cast hmon.2
  · exact rfm_segment_label_mem _ _ _

theorem C7_witness :
    (1 ≤ (⟨1, 5, 1, 1, "New Customers", "Recent customers with potential",
        "Onboarding campaigns, product education"⟩ : SegRow).recency_score ∧
      (⟨1, 5, 1, 1, "New Customers", "Recent customers with potential",
        "Onboarding campaigns, product education"⟩ : SegRow).recency_score ≤ 5) ∧
    (1 ≤ (⟨1, 5, 1, 1, "New Customers", "Recent customers with potential",
        "Onboarding campaigns, product education"⟩ : SegRow).frequency_score ∧
      (⟨1, 5, 1, 1, "New Customers", "Recent customers with potential",
        "Onboarding campaigns, product education"⟩ : SegRow).frequency_score ≤ 5) ∧
    (1 ≤ (⟨1, 5, 1, 1, "New Customers", "Recent customers with potential",
        "Onboarding campaigns, product education"⟩ : SegRow).monetary_score ∧
      (⟨1, 5, 1, 1, "New Customers", "Recent customers with potential",
        "Onboarding campaigns, product education"⟩ : SegRow).monetary_score ≤ 5) ∧
    (⟨1, 5, 1, 1, "New Customers", "Recent customers with potential",
      "Onboarding campaigns, product education"⟩ : SegRow).rfm_segment ∈
      segmentNames :=
  C7_rfm_scores_bounded [⟨1, 1, 50, 100, none, none⟩] [105]
    ⟨1, 5, 1, 1, "New Customers", "Recent customers with potential",
      "Onboarding campaigns, product education"⟩ (by decide)

theorem foldl_minDateStep_mem (l : List SDate) :
    ∀ a m : SDate, l.foldl minDateStep (some a) = some m → m = a ∨ m ∈ l := by
  induction l with
  | nil =>
    intro a m h
    simp at h
    exact Or.inl h.symm
  | cons dt tl ih =>
    intro a m h
    rw [List.foldl_cons] at h
    simp only [minDateStep] at h
    by_cases hle : dateLeB dt a
    · rw [if_pos hle] at h
      rcases ih dt m h with h1 | h1
      · exact Or.inr (h1 ▸ List.mem_cons_self dt tl)
      · exact Or.inr (List.mem_cons_of_mem dt h1)
    · rw [if_neg hle] at h
      rcases ih a m h with h1 | h1
      · exact Or.inl h1
      · exact Or.inr (List.mem_cons_of_mem dt h1)

/-- The SQL MIN of a date list is one of its elements. -/
theorem minDateFold_mem (l : List SDate) (m : SDate)
    (h : minDateFold l = some m) : m ∈ l := by
  cases l with
  | nil => simp [minDateFold] at h
  | cons dt tl =>
    have h2 : tl.foldl minDateStep (some dt) = some m := h
    rcases foldl_minDateStep_mem tl dt m h2 with h1 | h1
    · exact h1 ▸ List.mem_cons_self dt tl
    · exact List.mem_cons_of_mem dt h1

/-- Every customer of a cohort has in-window activity for every window
`w ≥ 0`: the first purchase itself happens at `months_since = 0`. -/
theorem cohort_customer_active (facts : List FactRow) (c : Int)
    (mo : Int × Int)
    (hmo : cohortMonthOf? facts c = some mo) (w : Int) (hw : 0 ≤ w) :
    facts.any (inWindowB mo w c) = true := by
  obtain ⟨dmin, hdmin, hmo2⟩ : ∃ dmin,
      firstOrderDate? facts c = some dmin ∧ mo = (dmin.y, dmin.m) := by
    unfold cohortMonthOf? at hmo
    cases hfo : firstOrderDate? facts c with
    | none =>
      rw [hfo] at hmo
      simp at hmo
    | some dmin =>
      rw [hfo] at hmo
      simp at hmo
      exact ⟨dmin, rfl, hmo.symm⟩
  have hmem : dmin ∈ datesOf facts c := minDateFold_mem _ _ hdmin
  unfold datesOf at hmem
  simp only [List.mem_map, List.mem_filter] at hmem
  obtain ⟨f, ⟨hf, hfc⟩, hfd⟩ := hmem
  rw [List.any_eq_true]
  refine ⟨f, hf, ?_⟩
  unfold inWindowB
  have hcid : f.customer_id = c := by simpa using hfc
  have hms : monthsSince mo f.date = 0 := by
    rw [hmo2, hfd]
    unfold monthsSince
    simp
  simp [hcid, hms, hw]

/-- For every window `w ≥ 0` the active-customer count of a cohort equals
its size: `BETWEEN 0 AND w` always admits the acquisition month itself. -/
theorem active_eq_cohortSize (facts : List FactRow) (mo : Int × Int)
    (w : Int) (hw : 0 ≤ w) :
    activeCustomers facts mo w = cohortSize facts mo := by
  unfold activeCustomers cohortSize
  congr 1
  apply List.filter_congr
  intro c _
  by_cases hmo : cohortMonthOf? facts c = some mo
  · simp [hmo, cohort_customer_active facts c mo hmo w hw]
  · simp [hmo]

/-- Every row the cumulative-retention INSERT produces carries a retention
rate of exactly 100 percent. -/
theorem retRow_rate_100 (facts : List FactRow) (w : Int) (hw : 0 ≤ w) :
    ∀ r ∈ retentionWindowRows facts w, r.cumulative_retention_rate = 100 := by
  intro r hr
  unfold retentionWindowRows at hr
  simp only [List.mem_map, List.mem_filter] at hr
  obtain ⟨mo, ⟨hmem, hcond⟩, hrow⟩ := hr
  have hsize : 10 ≤ cohortSize facts mo := by
    simp at hcond
    exact hcond.2
  subst hrow
  dsimp only
  rw [active_eq_cohortSize facts mo w hw]
  have hz : ((cohortSize facts mo : Nat) : ℚ) ≠ 0 := by
    exact_mod_cast Nat.cast_ne_zero.2 (by omega : cohortSize facts mo ≠ 0)
  rw [ratDiv_eq, div_self hz, ratMul_eq, one_mul]
  decide

/-- C6: for every cohort month present in all three retention windows, the
12-month cumulative retention rate is at most the 3-month rate and the
18-month rate at most the 12-month rate.  (On this code the rates are in
fact all equal — every cohort customer is active at months_since 0, so each
window retains the full cohort.) -/
theorem C6_retention_rate_monotone (facts : List FactRow) (mo : Int × Int)
    (r3 r12 r18 : ℚ)
    (h3 : retRate? facts mo 3 = some r3)
    (h12 : retRate? facts mo 12 = some r12)
    (h18 : retRate? facts mo 18 = some r18) :
    r12 ≤ r3 ∧ r18 ≤ r12 := by
  have hall : ∀ r ∈ build_cumulative_retention_analysis facts,
      r.cumulative_retention_rate = 100 := by
    intro r hr
    unfold build_cumulative_retention_analysis at hr
    rcases List.mem_append.1 hr with hr | hr
    · rcases List.mem_append.1 hr with hr | hr
      · exact retRow_rate_100 facts 3 (by norm_num) r hr
      · exact retRow_rate_100 facts 12 (by norm_num) r hr
    · exact retRow_rate_100 facts 18 (by norm_num) r hr
  have hval : ∀ w r, retRate? facts mo w = some r → r = 100 := by
    intro w r h
    unfold retRate? at h
    obtain ⟨row, hfind, hrate⟩ := Option.map_eq_some'.1 h
    rw [← hrate]
    exact hall row (List.mem_of_find?_eq_some hfind)
  rw [hval 3 r3 h3, hval 12 r12 h12, hval 18 r18 h18]
  exact ⟨le_refl _, le_refl _⟩

theorem C6_witness :
    retRate? factsExample (2021, 1) 3 = some 100 ∧
    retRate? factsExample (2021, 1) 12 = some 100 ∧
    retRate? factsExample (2021, 1) 18 = some 100 ∧
    ((100 : ℚ) ≤ 100 ∧ (100 : ℚ) ≤ 100) :=
  ⟨by decide, by decide, by decide,
    C6_retention_rate_monotone factsExample (2021, 1) 100 100 100
      (by decide) (by decide) (by decide)⟩

end Pipeline
